import Mathlib

/-!
Verification of the dispatch logic of the `zabbix_api` Ansible module
(`plugins/modules/zabbix_api.py`).

The module exposes one class, `API`, with two relevant members:

* `API._is_method(method)` compiles the regular expression
  `^[a-z]+\.[a-z]+$` and runs `pattern.search(method)`.  When the search
  finds no match it calls `self._module.fail_json(msg="{0} is invalid value.".format(method))`,
  which raises `SystemExit`; otherwise it returns `True`.

* `API.call(method, params={})` runs, inside `try: ... except Exception as e:`,

  ```
  if isinstance(method, str):
      if self._is_method(method):
          target_object, target_method = method.split(".")
  if self._module.check_mode:
      self._module.exit_json(changed=True)
  apireq = getattr(self._zapi, target_object)
  apimethod = getattr(apireq, target_method)
  res = apimethod(params)
  self._module.exit_json(changed=True, result=res)
  except Exception as e:
      self._module.fail_json(msg="Failed to call api: %s" % e)
  ```

  `exit_json` and `fail_json` raise `SystemExit`, which is not a subclass of
  `Exception`, so the reports they produce are not intercepted by the
  `except Exception` clause.  Every `Exception` raised by attribute
  resolution or by the remote invocation is converted into the
  `"Failed to call api: ..."` failure report.

The embedding below models strings by Lean `String`, the remote handle by a
function from attribute names to either a raised error message or a value,
and the terminal `exit_json` / `fail_json` reports by an `Outcome` type.
Alongside the outcome we record the trace of effects performed on the
remote handle (attribute resolutions and the invocation itself).
-/

/-- Splitting a character list on the dot character, mirroring the Python
expression `method.split(".")`: `"a..b"` gives `["a", "", "b"]`, the empty
string gives `[""]`. -/
def splitDot : List Char → List (List Char)
  | [] => [[]]
  | c :: rest =>
    if c = '.' then [] :: splitDot rest
    else
      match splitDot rest with
      | [] => [[c]]
      | g :: gs => (c :: g) :: gs

/-- Membership of a character in the regular-expression class `[a-z]`
(lowercase ASCII letters, code points 97 to 122). -/
def isLowerChar (c : Char) : Bool := decide (97 ≤ c.toNat) && decide (c.toNat ≤ 122)

/-- A nonempty run of lowercase ASCII letters: what `[a-z]+` matches. -/
def isLowerSeg (cs : List Char) : Bool := !cs.isEmpty && cs.all isLowerChar

/-- Full match of the regex body `[a-z]+\.[a-z]+` against a whole character
list: exactly one dot, and a nonempty lowercase run on each side. -/
def pyFullMatch (cs : List Char) : Bool :=
  match splitDot cs with
  | [a, b] => isLowerSeg a && isLowerSeg b
  | _ => false

/-- The second way `re.search(r"^[a-z]+\.[a-z]+$", s)` can succeed in
Python: the anchor `$` also matches just before a newline that is the last
character of the input, so the body may match everything before a single
trailing newline. -/
def pyMatchesBeforeFinalNewline (cs : List Char) : Bool :=
  match cs.getLast? with
  | Option.some c => if c = '\n' then pyFullMatch cs.dropLast else false
  | Option.none => false

/-- Embedding of the test performed by `API._is_method`: whether
`re.compile(r"^[a-z]+\.[a-z]+$").search(method)` finds a match, under
Python semantics of the anchors (`^` only at the start, `$` at the end or
just before a terminal newline).  The `fail_json` side effect of
`_is_method` on a failed search is modelled at its use site in `API.callT`. -/
def API.is_method (s : String) : Bool :=
  pyFullMatch s.data || pyMatchesBeforeFinalNewline s.data

/-- Modelled from the spec: the validation pattern as the spec words it,
namely strings of the exact form `<object>.<action>` with one or more
lowercase letters on each side of a single dot and no other characters,
the match spanning the entire string. -/
def specMethodPattern (s : String) : Bool := pyFullMatch s.data

/-- The `method` argument of `API.call`: either a Python `str` or some
value of any other type (for which `isinstance(method, str)` is false). -/
inductive MethodArg where
  | str (s : String)
  | notStr

/-- Observable effects performed on the remote-API handle during one run of
`API.call`: resolving the target object on the handle, resolving the target
method on the resulting sub-handle, and invoking the resolved operation
with its single argument. -/
inductive Event (P : Type) where
  | getObject (name : List Char)
  | getMethod (name : List Char)
  | invoke (args : P)

/-- A sub-handle of the remote API (the value of `getattr(self._zapi, target_object)`).
Resolving a method name on it either raises (error message) or yields the
callable operation; the operation applied to the parameter either raises or
returns a result. -/
structure SubHandle (P V : Type) where
  attr : List Char → Except String (P → Except String V)

/-- The remote-API handle `self._zapi`: resolving an object name either
raises or yields a sub-handle. -/
structure ZAPI (P V : Type) where
  attr : List Char → Except String (SubHandle P V)

/-- Terminal report of one module run: `exit_json(changed=..., result=...)`
is a success report (the result field is absent in check mode), and
`fail_json(msg=...)` is a failure report. -/
inductive Outcome (V : Type) where
  | exitJson (changed : Bool) (result : Option V)
  | failJson (msg : String)

/-- Outcome of a run together with the trace of effects performed on the
remote handle. -/
structure CallResult (P V : Type) where
  outcome : Outcome V
  trace : List (Event P)

/-- Message format of the `except Exception` clause of `API.call`:
`"Failed to call api: %s" % e`. -/
def apiFailMsg (e : String) : String := "Failed to call api: " ++ e

/-- Message of the `UnboundLocalError` raised when `target_object` is read
without having been assigned (the Python message additionally quotes the
variable name). -/
def unboundLocalMessage : String :=
  "local variable target_object referenced before assignment"

/-- Message of the `ValueError` raised if the unpacking
`target_object, target_method = method.split(".")` received a list whose
length is not two (unreachable after a successful pattern search). -/
def unpackErrorMessage : String := "not enough values to unpack (expected 2, got 1)"

/-- Resolution and invocation phase of `API.call` (the three statements
`apireq = getattr(self._zapi, target_object)`,
`apimethod = getattr(apireq, target_method)`, `res = apimethod(params)`),
together with the surrounding `except Exception` clause: any raised error
becomes a `"Failed to call api: ..."` failure report, and a returned value
becomes `exit_json(changed=True, result=res)`. -/
def API.resolveInvoke {P V : Type} (zapi : ZAPI P V) (tobj tmeth : List Char) (params : P) :
    CallResult P V :=
  match zapi.attr tobj with
  | Except.error e => ⟨Outcome.failJson (apiFailMsg e), [Event.getObject tobj]⟩
  | Except.ok sub =>
    match sub.attr tmeth with
    | Except.error e =>
      ⟨Outcome.failJson (apiFailMsg e), [Event.getObject tobj, Event.getMethod tmeth]⟩
    | Except.ok f =>
      match f params with
      | Except.error e =>
        ⟨Outcome.failJson (apiFailMsg e),
          [Event.getObject tobj, Event.getMethod tmeth, Event.invoke params]⟩
      | Except.ok v =>
        ⟨Outcome.exitJson true (Option.some v),
          [Event.getObject tobj, Event.getMethod tmeth, Event.invoke params]⟩

/-- Embedding of `API.call` returning the terminal report and the effect
trace.  Control flow mirrors the Python body statement by statement:

* a `str` method is validated first; a failed search makes `_is_method`
  report `fail_json("<method> is invalid value.")`, which escapes the
  `except Exception` clause unwrapped and before the check-mode test;
* on a successful search the method is split on the dot and unpacked
  (a wrong arity would raise `ValueError` into the except clause);
* the check-mode test then short-circuits with `exit_json(changed=True)`;
* a non-`str` method skips validation, so after the check-mode test the
  read of the unassigned `target_object` raises `UnboundLocalError` into
  the except clause;
* otherwise resolution and invocation proceed as in `API.resolveInvoke`. -/
def API.callT {P V : Type} (checkMode : Bool) (zapi : ZAPI P V) (method : MethodArg)
    (params : P) : CallResult P V :=
  match method with
  | MethodArg.str s =>
    if API.is_method s then
      match splitDot s.data with
      | [tobj, tmeth] =>
        if checkMode then ⟨Outcome.exitJson true Option.none, []⟩
        else API.resolveInvoke zapi tobj tmeth params
      | _ => ⟨Outcome.failJson (apiFailMsg unpackErrorMessage), []⟩
    else ⟨Outcome.failJson (s ++ " is invalid value."), []⟩
  | MethodArg.notStr =>
    if checkMode then ⟨Outcome.exitJson true Option.none, []⟩
    else ⟨Outcome.failJson (apiFailMsg unboundLocalMessage), []⟩

/-- Terminal report of `API.call`. -/
def API.call {P V : Type} (checkMode : Bool) (zapi : ZAPI P V) (method : MethodArg)
    (params : P) : Outcome V :=
  (API.callT checkMode zapi method params).outcome

/-- Effect trace of `API.call`. -/
def API.callTrace {P V : Type} (checkMode : Bool) (zapi : ZAPI P V) (method : MethodArg)
    (params : P) : List (Event P) :=
  (API.callT checkMode zapi method params).trace

/-- Arguments recorded for the remote invocations found in a trace. -/
def invocations {P : Type} (tr : List (Event P)) : List P :=
  tr.filterMap (fun e =>
    match e with
    | Event.invoke q => Option.some q
    | _ => Option.none)

/-- A Python value as far as this module is concerned: the `params` option
is a dict (or `None` when the task did not supply it) and results are
arbitrary JSON-like values. -/
inductive PyValue where
  | none
  | bool (b : Bool)
  | int (n : Int)
  | str (s : String)
  | list (xs : List PyValue)
  | dict (entries : List (String × PyValue))

/-- Value of `module.params["params"]` as `main` reads it: the framework
stores the supplied dict, and stores `None` for an optional parameter that
was not supplied and declares no default. -/
def moduleParamValue (paramsInput : Option (List (String × PyValue))) : PyValue :=
  match paramsInput with
  | Option.some entries => PyValue.dict entries
  | Option.none => PyValue.none

/-- Embedding of `main`: it reads `method` and `params` from the module
input and forwards them to `API.call`; in particular `params` is passed
explicitly, so the `params={}` default of the `call` signature is never
used, and an absent `params` option arrives at `call` as `None`. -/
def main_run {V : Type} (checkMode : Bool) (zapi : ZAPI PyValue V) (methodInput : String)
    (paramsInput : Option (List (String × PyValue))) : CallResult PyValue V :=
  API.callT checkMode zapi (MethodArg.str methodInput) (moduleParamValue paramsInput)

/-- A remote handle on which every resolution succeeds and every operation
returns its argument unchanged; used to exhibit concrete runs. -/
def echoZapi : ZAPI PyValue PyValue :=
  ⟨fun _ => Except.ok ⟨fun _ => Except.ok (fun p => Except.ok p)⟩⟩

/-- A remote handle on which object resolution always raises. -/
def errZapi : ZAPI PyValue PyValue := ⟨fun _ => Except.error "unknown api object"⟩

/-- The result returned by the dashboard fixture below. -/
def dashResult : PyValue :=
  PyValue.dict [("result", PyValue.list [PyValue.dict [("dashboardid", PyValue.str "1")]])]

/-- The parameter map of the dashboard example from the spec. -/
def dashParams : PyValue :=
  PyValue.dict [("filter", PyValue.dict [("name", PyValue.str "X")])]

/-- Sub-handle exposing only a `get` operation that returns `dashResult`. -/
def dashSub : SubHandle PyValue PyValue :=
  ⟨fun m =>
    if m = "get".data then Except.ok (fun _ => Except.ok dashResult)
    else Except.error "unknown method"⟩

/-- Remote handle exposing only a `dashboard` object. -/
def dashZapi : ZAPI PyValue PyValue :=
  ⟨fun o => if o = "dashboard".data then Except.ok dashSub else Except.error "unknown object"⟩

/-- Splitting on the dot never yields an empty list of groups. -/
theorem splitDot_ne_nil (xs : List Char) : splitDot xs ≠ [] := by
  cases xs with
  | nil => simp [splitDot]
  | cons c rest =>
    by_cases h : c = '.'
    · simp [splitDot, h]
    · simp only [splitDot, if_neg h]
      cases splitDot rest <;> simp

/-- Appending a non-dot character does not change the number of groups
produced by splitting on the dot. -/
theorem splitDot_concat_length (xs : List Char) (c : Char) (h : ¬ c = '.') :
    (splitDot (xs ++ [c])).length = (splitDot xs).length := by
  induction xs with
  | nil => simp [splitDot, h]
  | cons x rest ih =>
    by_cases hx : x = '.'
    · simp only [List.cons_append, splitDot, if_pos hx, List.length_cons]
      exact congrArg (fun n => n + 1) ih
    · simp only [List.cons_append, splitDot, if_neg hx]
      have h1 := splitDot_ne_nil (rest ++ [c])
      have h2 := splitDot_ne_nil rest
      cases e1 : splitDot (rest ++ [c]) with
      | nil => exact absurd e1 h1
      | cons g gs =>
        cases e2 : splitDot rest with
        | nil => exact absurd e2 h2
        | cons g2 gs2 =>
          have hlen := ih
          rw [e1, e2] at hlen
          simpa using hlen

/-- A full match of the regex body forces exactly two dot-separated groups. -/
theorem pyFullMatch_split (cs : List Char) (h : pyFullMatch cs = true) :
    ∃ a b, splitDot cs = [a, b] ∧ isLowerSeg a = true ∧ isLowerSeg b = true := by
  unfold pyFullMatch at h
  rcases e : splitDot cs with _ | ⟨a, _ | ⟨b, _ | ⟨c, t⟩⟩⟩ <;> rw [e] at h <;>
    simp at h
  exact ⟨a, b, rfl, h.1, h.2⟩

/-- When the character list ends in a newline, it is its front part with the
newline appended. -/
theorem eq_dropLast_concat_of_getLast_newline (cs : List Char)
    (h : cs.getLast? = Option.some '\n') : cs = cs.dropLast ++ ['\n'] := by
  have hne : cs ≠ [] := by
    intro h0
    rw [h0] at h
    simp at h
  have h1 := List.dropLast_append_getLast hne
  have h2 := List.getLast?_eq_getLast cs hne
  rw [h] at h2
  have h3 : cs.getLast hne = '\n' := by
    injection h2 with h2
    exact h2.symm
  rw [h3] at h1
  exact h1.symm

/-- A successful search forces exactly two dot-separated groups of the full
method string, also in the trailing-newline case. -/
theorem is_method_split (s : String) (h : API.is_method s = true) :
    ∃ a b, splitDot s.data = [a, b] := by
  unfold API.is_method at h
  rcases Bool.or_eq_true_iff.mp h with h1 | h2
  · obtain ⟨a, b, e, _, _⟩ := pyFullMatch_split s.data h1
    exact ⟨a, b, e⟩
  · unfold pyMatchesBeforeFinalNewline at h2
    rcases hl : s.data.getLast? with _ | c
    · simp [hl] at h2
    · simp only [hl] at h2
      by_cases hc : c = '\n'
      · rw [if_pos hc] at h2
        subst hc
        obtain ⟨a, b, e, _, _⟩ := pyFullMatch_split s.data.dropLast h2
        have hcs := eq_dropLast_concat_of_getLast_newline s.data hl
        have hlen : (splitDot s.data).length = 2 := by
          rw [hcs, splitDot_concat_length s.data.dropLast '\n' (by decide), e]
          rfl
        rcases e2 : splitDot s.data with _ | ⟨a2, _ | ⟨b2, _ | ⟨c2, t2⟩⟩⟩ <;>
          rw [e2] at hlen <;> simp at hlen
        exact ⟨a2, b2, rfl⟩
      · rw [if_neg hc] at h2
        simp at h2

/-- The resolution and invocation phase performs at most one remote
invocation, and when it does the argument is the parameter map it was
given. -/
theorem invocations_resolveInvoke {P V : Type} (zapi : ZAPI P V) (a b : List Char) (p : P) :
    invocations (API.resolveInvoke zapi a b p).trace = [] ∨
      invocations (API.resolveInvoke zapi a b p).trace = [p] := by
  rcases h1 : zapi.attr a with e | sub
  · left; simp [API.resolveInvoke, h1, invocations]
  · rcases h2 : sub.attr b with e | f
    · left; simp [API.resolveInvoke, h1, h2, invocations]
    · rcases h3 : f p with e | v
      · right; simp [API.resolveInvoke, h1, h2, h3, invocations]
      · right; simp [API.resolveInvoke, h1, h2, h3, invocations]

/-- Every run of the dispatcher performs at most one remote invocation, and
when it does the argument is exactly the parameter value of the run. -/
theorem invocations_callT {P V : Type} (cm : Bool) (zapi : ZAPI P V) (m : MethodArg) (p : P) :
    invocations (API.callT cm zapi m p).trace = [] ∨
      invocations (API.callT cm zapi m p).trace = [p] := by
  cases m with
  | notStr => cases cm <;> simp [API.callT, invocations]
  | str s =>
    cases h : API.is_method s with
    | false => left; simp [API.callT, h, invocations]
    | true =>
      rcases hs : splitDot s.data with _ | ⟨a, rest⟩
      · left; simp [API.callT, h, hs, invocations]
      · rcases rest with _ | ⟨b, rest2⟩
        · left; simp [API.callT, h, hs, invocations]
        · rcases rest2 with _ | ⟨c, t⟩
          · cases cm with
            | true => left; simp [API.callT, h, hs, invocations]
            | false =>
              have hr := invocations_resolveInvoke zapi a b p
              simpa [API.callT, h, hs] using hr
          · left; simp [API.callT, h, hs, invocations]

/-- C1: for every method string on which the pattern search fails, `call`
reports a failure whose message is exactly the method string followed by
" is invalid value.", and performs no attribute resolution on the remote
handle and no remote invocation (the effect trace is empty). -/
theorem claim_C1_invalid_method_reports_and_stops {P V : Type} (cm : Bool) (zapi : ZAPI P V)
    (s : String) (p : P) (h : API.is_method s = false) :
    API.call cm zapi (MethodArg.str s) p = Outcome.failJson (s ++ " is invalid value.") ∧
      API.callTrace cm zapi (MethodArg.str s) p = [] := by
  constructor <;> simp [API.call, API.callTrace, API.callT, h]

/-- Witness for C1 at the concrete invalid method string "Foo.bar". -/
theorem claim_C1_witness :
    API.is_method "Foo.bar" = false ∧
      (API.call true echoZapi (MethodArg.str "Foo.bar") PyValue.none =
          Outcome.failJson ("Foo.bar" ++ " is invalid value.") ∧
        API.callTrace true echoZapi (MethodArg.str "Foo.bar") PyValue.none = []) :=
  ⟨by decide,
    claim_C1_invalid_method_reports_and_stops true echoZapi "Foo.bar" PyValue.none (by decide)⟩

/-- C2 counterexample: in check mode an invalid string method does not
yield a success report; validation runs before the check-mode test, so the
run fails with the invalid-value message instead. -/
theorem claim_C2_counterexample :
    API.call true echoZapi (MethodArg.str "Foo.bar") PyValue.none =
        Outcome.failJson ("Foo.bar" ++ " is invalid value.") ∧
      API.call true echoZapi (MethodArg.str "Foo.bar") PyValue.none ≠
        Outcome.exitJson true Option.none := by
  constructor
  · rfl
  · intro hx
    exact Outcome.noConfusion hx

/-- C2 as amended: in check mode, for every string method that passes
validation, `call` returns a success report with changed true and no result
field, and performs no resolution and no remote invocation. -/
theorem claim_C2_check_mode_short_circuit {P V : Type} (zapi : ZAPI P V) (s : String) (p : P)
    (h : API.is_method s = true) :
    API.call true zapi (MethodArg.str s) p = Outcome.exitJson true Option.none ∧
      API.callTrace true zapi (MethodArg.str s) p = [] := by
  obtain ⟨a, b, hs⟩ := is_method_split s h
  constructor <;> simp [API.call, API.callTrace, API.callT, h, hs]

/-- Witness for the amended C2 at the concrete valid method "dashboard.get". -/
theorem claim_C2_witness :
    API.is_method "dashboard.get" = true ∧
      (API.call true echoZapi (MethodArg.str "dashboard.get") PyValue.none =
          Outcome.exitJson true Option.none ∧
        API.callTrace true echoZapi (MethodArg.str "dashboard.get") PyValue.none = []) :=
  ⟨by decide, claim_C2_check_mode_short_circuit echoZapi "dashboard.get" PyValue.none (by decide)⟩

/-- C3: for a valid method string, whenever any stage of resolution or the
remote invocation raises (unknown object, unknown method, or an error from
the call itself), `call` returns a failure whose message is
"Failed to call api: " followed by the stringified error; no exception
reaches the caller. -/
theorem claim_C3_exception_collapsed {P V : Type} (zapi : ZAPI P V) (s : String)
    (a b : List Char) (p : P) (e : String) (h : API.is_method s = true)
    (hs : splitDot s.data = [a, b])
    (he : zapi.attr a = Except.error e ∨
        (∃ sub, zapi.attr a = Except.ok sub ∧ sub.attr b = Except.error e) ∨
        (∃ sub f, zapi.attr a = Except.ok sub ∧ sub.attr b = Except.ok f ∧
          f p = Except.error e)) :
    API.call false zapi (MethodArg.str s) p =
      Outcome.failJson ("Failed to call api: " ++ e) := by
  rcases he with h1 | ⟨sub, h1, h2⟩ | ⟨sub, f, h1, h2, h3⟩
  · simp [API.call, API.callT, h, hs, API.resolveInvoke, h1, apiFailMsg]
  · simp [API.call, API.callT, h, hs, API.resolveInvoke, h1, h2, apiFailMsg]
  · simp [API.call, API.callT, h, hs, API.resolveInvoke, h1, h2, h3, apiFailMsg]

/-- Witness for C3: on a handle whose object resolution raises, the valid
method "dashboard.get" produces the wrapped failure message. -/
theorem claim_C3_witness :
    API.is_method "dashboard.get" = true ∧
      API.call false errZapi (MethodArg.str "dashboard.get") PyValue.none =
        Outcome.failJson ("Failed to call api: " ++ "unknown api object") :=
  ⟨by decide,
    claim_C3_exception_collapsed errZapi "dashboard.get" "dashboard".data "get".data
      PyValue.none "unknown api object" (by decide) (by decide) (Or.inl rfl)⟩

/-- C4 counterexample: when the params option is absent from the module
input, `main` forwards the framework value None to the remote call, not an
empty mapping; the invoked operation receives None. -/
theorem claim_C4_counterexample :
    invocations (main_run false echoZapi "foo.bar" Option.none).trace = [PyValue.none] ∧
      PyValue.none ≠ PyValue.dict [] := by
  constructor
  · rfl
  · intro hx
    exact PyValue.noConfusion hx

/-- C4 as amended: the remote operation, when invoked at all, receives as
its sole argument exactly the value of the params option, which is the
mapping the caller supplied, or None when none was supplied (the empty
mapping default in the signature of `call` is never exercised by `main`). -/
theorem claim_C4_params_forwarded_verbatim {V : Type} (cm : Bool) (zapi : ZAPI PyValue V)
    (ms : String) (pin : Option (List (String × PyValue))) :
    (invocations (main_run cm zapi ms pin).trace = [] ∨
        invocations (main_run cm zapi ms pin).trace = [moduleParamValue pin]) ∧
      moduleParamValue Option.none = PyValue.none ∧
      ∀ es, moduleParamValue (Option.some es) = PyValue.dict es := by
  refine ⟨?_, rfl, fun es => rfl⟩
  simpa [main_run] using invocations_callT cm zapi (MethodArg.str ms) (moduleParamValue pin)

/-- C5 counterexample: the string "foo.bar" followed by a trailing newline
contains a character that is neither a lowercase letter nor the separating
dot, and it is not of the exact form object dot action, yet validation
passes (the Python anchor also matches before a terminal newline) and the
run resolves and invokes the remote operation instead of reporting an
invalid value. -/
theorem claim_C5_counterexample :
    specMethodPattern "foo.bar\n" = false ∧
      API.is_method "foo.bar\n" = true ∧
      API.call false echoZapi (MethodArg.str "foo.bar\n") PyValue.none =
        Outcome.exitJson true (Option.some PyValue.none) ∧
      API.callTrace false echoZapi (MethodArg.str "foo.bar\n") PyValue.none ≠ [] := by
  refine ⟨by decide, by decide, rfl, ?_⟩
  intro hx
  exact List.noConfusion hx

/-- C5 as amended: validation accepts exactly the strings of the form
object dot action (one or more lowercase letters on each side of a single
dot) optionally followed by one trailing newline; every other string is
rejected. -/
theorem claim_C5_pattern_characterization (s : String) :
    API.is_method s = true ↔
      (specMethodPattern s = true ∨
        ∃ t : String, s = t ++ "\n" ∧ specMethodPattern t = true) := by
  constructor
  · intro h
    rcases Bool.or_eq_true_iff.mp h with h1 | h2
    · exact Or.inl h1
    · unfold pyMatchesBeforeFinalNewline at h2
      rcases hl : s.data.getLast? with _ | c
      · simp [hl] at h2
      · simp only [hl] at h2
        by_cases hc : c = '\n'
        · rw [if_pos hc] at h2
          subst hc
          refine Or.inr ⟨String.mk s.data.dropLast, ?_, h2⟩
          apply String.ext
          rw [String.data_append]
          have hd := eq_dropLast_concat_of_getLast_newline s.data hl
          simpa using hd
        · rw [if_neg hc] at h2
          simp at h2
  · intro h
    rcases h with h1 | ⟨t, ht, hm⟩
    · exact Bool.or_eq_true_iff.mpr (Or.inl h1)
    · subst ht
      have hdata : (t ++ "\n").data = t.data ++ ['\n'] := by
        rw [String.data_append]
      unfold API.is_method pyMatchesBeforeFinalNewline
      rw [hdata, List.getLast?_concat]
      unfold specMethodPattern at hm
      simp [List.dropLast_concat, hm]

/-- C6: for a valid method string with check mode off, when resolution
succeeds and the remote operation returns a value, `call` reports success
with changed unconditionally true and the raw returned value as result. -/
theorem claim_C6_success_unconditional_changed {P V : Type} (zapi : ZAPI P V) (s : String)
    (a b : List Char) (p : P) (sub : SubHandle P V) (f : P → Except String V) (v : V)
    (h : API.is_method s = true) (hs : splitDot s.data = [a, b])
    (h1 : zapi.attr a = Except.ok sub) (h2 : sub.attr b = Except.ok f)
    (h3 : f p = Except.ok v) :
    API.call false zapi (MethodArg.str s) p = Outcome.exitJson true (Option.some v) := by
  simp [API.call, API.callT, h, hs, API.resolveInvoke, h1, h2, h3]

/-- Witness for C6: the dashboard example of the spec, on a handle whose
dashboard object exposes a get operation returning the fixed result. -/
theorem claim_C6_witness :
    API.is_method "dashboard.get" = true ∧
      API.call false dashZapi (MethodArg.str "dashboard.get") dashParams =
        Outcome.exitJson true (Option.some dashResult) :=
  ⟨by decide,
    claim_C6_success_unconditional_changed dashZapi "dashboard.get" "dashboard".data
      "get".data dashParams dashSub (fun _ => Except.ok dashResult) dashResult (by decide)
      (by decide) rfl rfl rfl⟩

/-- C7: a method string that passes validation is split on the dot into
exactly two segments, the first resolution performed is that of the target
object on the remote handle, and when that resolution succeeds the next
effect is the resolution of the target method on the obtained sub-handle. -/
theorem claim_C7_split_and_resolve_both {P V : Type} (zapi : ZAPI P V) (s : String) (p : P)
    (h : API.is_method s = true) :
    ∃ tobj tmeth, splitDot s.data = [tobj, tmeth] ∧
      (API.callTrace false zapi (MethodArg.str s) p).head? =
        Option.some (Event.getObject tobj) ∧
      ∀ sub, zapi.attr tobj = Except.ok sub →
        (API.callTrace false zapi (MethodArg.str s) p).take 2 =
          [Event.getObject tobj, Event.getMethod tmeth] := by
  obtain ⟨a, b, hs⟩ := is_method_split s h
  refine ⟨a, b, hs, ?_, ?_⟩
  · rcases h1 : zapi.attr a with e | sub
    · simp [API.callTrace, API.callT, h, hs, API.resolveInvoke, h1]
    · rcases h2 : sub.attr b with e | f
      · simp [API.callTrace, API.callT, h, hs, API.resolveInvoke, h1, h2]
      · rcases h3 : f p with e | v <;>
          simp [API.callTrace, API.callT, h, hs, API.resolveInvoke, h1, h2, h3]
  · intro sub h1
    rcases h2 : sub.attr b with e | f
    · simp [API.callTrace, API.callT, h, hs, API.resolveInvoke, h1, h2]
    · rcases h3 : f p with e | v <;>
        simp [API.callTrace, API.callT, h, hs, API.resolveInvoke, h1, h2, h3]

/-- Witness for C7 at the valid method "dashboard.get" on the dashboard
fixture handle. -/
theorem claim_C7_witness :
    API.is_method "dashboard.get" = true ∧
      ∃ tobj tmeth, splitDot "dashboard.get".data = [tobj, tmeth] ∧
        (API.callTrace false dashZapi (MethodArg.str "dashboard.get") dashParams).head? =
          Option.some (Event.getObject tobj) ∧
        ∀ sub, dashZapi.attr tobj = Except.ok sub →
          (API.callTrace false dashZapi (MethodArg.str "dashboard.get") dashParams).take 2 =
            [Event.getObject tobj, Event.getMethod tmeth] :=
  ⟨by decide, claim_C7_split_and_resolve_both dashZapi "dashboard.get" dashParams (by decide)⟩

/-- C8: every run of `call`, for any method value, parameter, check-mode
setting, and behaviour of the remote handle, ends in a terminal report:
either a success report or a failure report. -/
theorem claim_C8_always_terminal_report {P V : Type} (cm : Bool) (zapi : ZAPI P V)
    (m : MethodArg) (p : P) :
    (∃ c r, API.call cm zapi m p = Outcome.exitJson c r) ∨
      ∃ msg, API.call cm zapi m p = Outcome.failJson msg := by
  cases hx : API.call cm zapi m p with
  | exitJson c r => exact Or.inl ⟨c, r, rfl⟩
  | failJson msg => exact Or.inr ⟨msg, rfl⟩

/-- C9: every run of `call` performs at most one remote invocation, and
when it performs one the operation receives the parameter value of the run
as its sole argument; no branch performs a second remote call. -/
theorem claim_C9_at_most_one_invocation {P V : Type} (cm : Bool) (zapi : ZAPI P V)
    (m : MethodArg) (p : P) :
    invocations (API.callTrace cm zapi m p) = [] ∨
      invocations (API.callTrace cm zapi m p) = [p] := by
  have hx := invocations_callT cm zapi m p
  simpa [API.callTrace] using hx

/-- C10: a non-string method value skips format validation entirely: in
check mode the run reports success with changed true, and otherwise the
reported failure carries the generic wrapped message arising from the
unbound target object, never the invalid-value message of validation. -/
theorem claim_C10_nonstring_method {P V : Type} (zapi : ZAPI P V) (p : P) :
    API.call true zapi MethodArg.notStr p = Outcome.exitJson true Option.none ∧
      API.call false zapi MethodArg.notStr p =
        Outcome.failJson ("Failed to call api: " ++ unboundLocalMessage) ∧
      API.callTrace false zapi MethodArg.notStr p = [] ∧
      ∀ m : String, API.call false zapi MethodArg.notStr p ≠
        Outcome.failJson (m ++ " is invalid value.") := by
  refine ⟨rfl, rfl, rfl, ?_⟩
  intro m hx
  have hx2 : ("Failed to call api: " ++ unboundLocalMessage : String) =
      m ++ " is invalid value." := by
    injection hx
  have hd := congrArg (fun t : String => t.data.getLast?) hx2
  simp only [String.data_append] at hd
  have h1 : unboundLocalMessage.data ≠ [] := by decide
  have h2 : (" is invalid value." : String).data ≠ [] := by decide
  rw [List.getLast?_append_of_ne_nil _ h1, List.getLast?_append_of_ne_nil _ h2] at hd
  exact absurd hd (by decide)
